import Mathlib

/-!
Shallow embedding of the simulation core of the Castles game engine
(`game.py`): tile queries, player physics and collision resolution,
enemy AI dispatch, and the cross-entity interaction/completion resolver.
Positions and velocities are rationals (the source uses Python floats but
every constant involved is dyadic, so the arithmetic is exact); pixel
rectangles are integers obtained by Python `int()` truncation.
-/

namespace Castles

/-- `TILE_SIZE` from game.py. -/
def tileSize : Int := 16

/-- `GRAVITY` from game.py (0.5). -/
def gravity : ℚ := 1/2

/-- `MAX_FALL_SPEED` from game.py. -/
def maxFallSpeed : ℚ := 10

/-- Python `int()` applied to an exact rational: truncation toward zero. -/
def pyInt (q : ℚ) : Int := if 0 ≤ q then ⌊q⌋ else ⌈q⌉

/-- A pygame `Rect`: integer top-left corner plus width and height. -/
structure Rect where
  x : Int
  y : Int
  w : Int
  h : Int
  deriving DecidableEq, Repr

/-- `pygame.Rect.colliderect`: strict overlap on both axes (for the
positive-size rectangles used by the engine). -/
def colliderect (a b : Rect) : Bool :=
  decide (a.x < b.x + b.w) && decide (a.x + a.w > b.x) &&
  decide (a.y < b.y + b.h) && decide (a.y + a.h > b.y)

/-- The pixel rectangle of the tile at grid coordinate `(tx, ty)`. -/
def tileRect (tx ty : Int) : Rect :=
  ⟨tx * tileSize, ty * tileSize, tileSize, tileSize⟩

/-- `TileType` from game.py (the pygame surface is dropped; the property
tags are the JSON strings). -/
structure TileType where
  id : Int
  name : String
  image_path : Option String
  properties : List String
  color : Int × Int × Int
  deriving DecidableEq, Repr

/-- `Tile` from game.py. -/
structure Tile where
  tile_type_id : Int
  layer : String
  deriving DecidableEq, Repr

/-- Whether a tile type carries a given property tag
(`prop in tile_type.properties`). -/
def hasProp (tt : TileType) (prop : String) : Bool :=
  tt.properties.contains prop

/-- `EnemyType` from game.py (image surface dropped). -/
structure EnemyType where
  id : Int
  name : String
  image_path : Option String
  ai_type : String
  health : Int
  damage : Int
  speed : ℚ
  color : Int × Int × Int
  required : Bool
  deriving DecidableEq, Repr

/-- `CollectibleType` from game.py (image surface dropped). -/
structure CollectibleType where
  id : Int
  name : String
  image_path : Option String
  effect : String
  value : Int
  color : Int × Int × Int
  required : Bool
  deriving DecidableEq, Repr

/-- `Enemy` from game.py: kinematic state plus a reference to its type. -/
structure Enemy where
  x : ℚ
  y : ℚ
  etype : EnemyType
  patrol_range : ℚ
  width : Int
  height : Int
  health : Int
  vel_x : ℚ
  vel_y : ℚ
  direction : Int
  start_x : ℚ
  alive : Bool
  deriving DecidableEq, Repr

/-- `Enemy.get_rect`. -/
def enemyRect (e : Enemy) : Rect :=
  ⟨pyInt e.x, pyInt e.y, e.width, e.height⟩

/-- `Enemy.__init__` with the fixed sizes and initial flags from game.py. -/
def mkEnemy (x y : ℚ) (et : EnemyType) (patrolRange : ℚ) : Enemy :=
  { x := x, y := y, etype := et, patrol_range := patrolRange,
    width := tileSize, height := tileSize, health := et.health,
    vel_x := 0, vel_y := 0, direction := 1, start_x := x, alive := true }

/-- `Enemy.take_damage`: subtract, and clear `alive` at or below zero. -/
def takeDamage (e : Enemy) (amount : Int) : Enemy :=
  let h := e.health - amount
  { e with health := h, alive := if h ≤ 0 then false else e.alive }

/-- `Collectible` from game.py (integer placement, one-shot flag). -/
structure Collectible where
  x : Int
  y : Int
  ctype : CollectibleType
  width : Int
  height : Int
  collected : Bool
  deriving DecidableEq, Repr

/-- `Collectible.get_rect`. -/
def collectibleRect (c : Collectible) : Rect :=
  ⟨c.x, c.y, c.width, c.height⟩

/-- `Level` from game.py: the three tile layers as insertion-ordered
association lists, the type tables, entity lists and the run counters
(rendering/viewport fields dropped). -/
structure Level where
  width : Int
  height : Int
  tile_types : List (Int × TileType)
  backgroundTiles : List ((Int × Int) × Tile)
  mainTiles : List ((Int × Int) × Tile)
  foregroundTiles : List ((Int × Int) × Tile)
  enemies : List Enemy
  collectibles : List Collectible
  score : Int
  keys_collected : Int
  required_collectibles_total : Int
  required_collectibles_collected : Int
  required_enemies_total : Int
  required_enemies_killed : Int
  deriving DecidableEq, Repr

/-- One tile layer filtered by a property tag, mirroring the inner loop of
the `get_*_tiles` methods: keep a tile when its type id resolves and the
type carries the property. -/
def layerWithProperty (types : List (Int × TileType)) (prop : String)
    (layer : List ((Int × Int) × Tile)) : List ((Int × Int) × Tile) :=
  layer.filter (fun pt =>
    match types.lookup pt.2.tile_type_id with
    | some tt => hasProp tt prop
    | none => false)

/-- The `get_*_tiles` scan: background, then main, then foreground layer. -/
def tilesWithProperty (lvl : Level) (prop : String) : List ((Int × Int) × Tile) :=
  layerWithProperty lvl.tile_types prop lvl.backgroundTiles ++
  layerWithProperty lvl.tile_types prop lvl.mainTiles ++
  layerWithProperty lvl.tile_types prop lvl.foregroundTiles

/-- `Level.get_solid_tiles`. -/
def getSolidTiles (lvl : Level) : List ((Int × Int) × Tile) :=
  tilesWithProperty lvl ("solid")

/-- `Level.get_platform_tiles`. -/
def getPlatformTiles (lvl : Level) : List ((Int × Int) × Tile) :=
  tilesWithProperty lvl ("platform")

/-- `Level.get_hazard_tiles`. -/
def getHazardTiles (lvl : Level) : List ((Int × Int) × Tile) :=
  tilesWithProperty lvl ("hazard")

/-- `Level.get_end_level_tiles`. -/
def getEndLevelTiles (lvl : Level) : List ((Int × Int) × Tile) :=
  tilesWithProperty lvl ("end_level")

/-- `Level.get_ladder_tiles` (the source returns the tile type in the pair;
only the coordinates are consumed, so the tile is kept here). -/
def getLadderTiles (lvl : Level) : List ((Int × Int) × Tile) :=
  tilesWithProperty lvl ("ladder")

/-- `Level.all_requirements_met`: required collectibles and required
enemies both at or above their totals. -/
def allRequirementsMet (lvl : Level) : Bool :=
  decide (lvl.required_collectibles_collected ≥ lvl.required_collectibles_total) &&
  decide (lvl.required_enemies_killed ≥ lvl.required_enemies_total)

/-- The per-tick input intent consumed by `Player.update`: each flag
collapses the arrow key and its WASD alias. -/
structure Keys where
  left : Bool
  right : Bool
  up : Bool
  down : Bool
  deriving DecidableEq, Repr

/-- `Player` from game.py: kinematic state, contact flags, stats, and the
attack sub-state. -/
structure Player where
  x : ℚ
  y : ℚ
  width : Int
  height : Int
  vel_x : ℚ
  vel_y : ℚ
  on_ground : Bool
  on_ladder : Bool
  climbing : Bool
  speed : ℚ
  jump_strength : ℚ
  health : Int
  max_health : Int
  attacking : Bool
  attack_timer : Int
  attack_duration : Int
  attack_cooldown : Int
  attack_cooldown_timer : Int
  attack_damage : Int
  attack_range : Int
  facing_right : Bool
  deriving DecidableEq, Repr

/-- `Player.__init__` with the constants from game.py. -/
def mkPlayer (x y : ℚ) : Player :=
  { x := x, y := y, width := 14, height := 28, vel_x := 0, vel_y := 0,
    on_ground := false, on_ladder := false, climbing := false,
    speed := 3, jump_strength := 10, health := 100, max_health := 100,
    attacking := false, attack_timer := 0, attack_duration := 10,
    attack_cooldown := 20, attack_cooldown_timer := 0,
    attack_damage := 25, attack_range := 35, facing_right := true }

/-- `Player.get_rect`. -/
def playerRect (p : Player) : Rect :=
  ⟨pyInt p.x, pyInt p.y, p.width, p.height⟩

/-- `Player.get_attack_rect`: the forward-offset sword hitbox (the zero
rectangle while not attacking). -/
def attackRect (p : Player) : Rect :=
  if p.attacking then
    if p.facing_right then
      ⟨pyInt (p.x + (p.width : ℚ)), pyInt p.y, p.attack_range, p.height⟩
    else
      ⟨pyInt (p.x - (p.attack_range : ℚ)), pyInt p.y, p.attack_range, p.height⟩
  else ⟨0, 0, 0, 0⟩

/-- `Player.start_attack`: accepted only when off cooldown and not already
attacking. -/
def startAttack (p : Player) : Player :=
  if p.attack_cooldown_timer ≤ 0 ∧ ¬p.attacking then
    { p with attacking := true, attack_timer := p.attack_duration }
  else p

/-- Horizontal intent of `Player.update`: reset `vel_x`, then left before
right in the source's conditional chain; either direction cancels
climbing. -/
def playerHorizontalInput (keys : Keys) (p : Player) : Player :=
  let p := { p with vel_x := 0 }
  if keys.left then
    { p with vel_x := -p.speed, facing_right := false, climbing := false }
  else if keys.right then
    { p with vel_x := p.speed, facing_right := true, climbing := false }
  else p

/-- Climbing intent of `Player.update`: only while on a ladder; up or down
start climbing at climb speed, otherwise an ongoing climb holds still. -/
def playerClimbInput (keys : Keys) (p : Player) : Player :=
  if p.on_ladder then
    if keys.up then { p with climbing := true, vel_y := -p.speed }
    else if keys.down then { p with climbing := true, vel_y := p.speed }
    else if p.climbing then { p with vel_y := 0 } else p
  else p

/-- Jump intent of `Player.update` (game.py lines 197-199): up key while
on the ground and not on a ladder. -/
def playerJumpInput (keys : Keys) (p : Player) : Player :=
  if keys.up ∧ p.on_ground ∧ ¬p.on_ladder then
    { p with vel_y := -p.jump_strength, on_ground := false }
  else p

/-- Gravity step of `Player.update`: suspended entirely while climbing,
clamped at the maximal fall speed. -/
def playerGravity (p : Player) : Player :=
  if ¬p.climbing then
    let vy := p.vel_y + gravity
    { p with vel_y := if vy > maxFallSpeed then maxFallSpeed else vy }
  else p

/-- `Player.handle_horizontal_collisions`: the player rectangle is captured
once at entry; every solid tile pushes the body flush on the side given by
the sign of the current horizontal velocity and zeroes it. -/
def handleHorizontalCollisions (lvl : Level) (p : Player) : Player :=
  let rect := playerRect p
  (getSolidTiles lvl).foldl (fun pl t =>
    let trect := tileRect t.1.1 t.1.2
    if colliderect rect trect then
      let pl :=
        if pl.vel_x > 0 then { pl with x := ((trect.x - pl.width : Int) : ℚ) }
        else if pl.vel_x < 0 then { pl with x := ((trect.x + trect.w : Int) : ℚ) }
        else pl
      { pl with vel_x := 0 }
    else pl) p

/-- The ladder scan of `Player.handle_vertical_collisions`: overlap with
any ladder tile sets the on-ladder flag, blocking nothing. -/
def ladderFold (rect : Rect) (tiles : List ((Int × Int) × Tile)) (p : Player) : Player :=
  tiles.foldl (fun pl t =>
    if colliderect rect (tileRect t.1.1 t.1.2) then { pl with on_ladder := true } else pl) p

/-- The solid scan of `Player.handle_vertical_collisions`: falling bodies
snap to the tile top, land and stop; rising bodies snap below the tile and
stop. -/
def solidFoldV (rect : Rect) (tiles : List ((Int × Int) × Tile)) (p : Player) : Player :=
  tiles.foldl (fun pl t =>
    let trect := tileRect t.1.1 t.1.2
    if colliderect rect trect then
      if pl.vel_y > 0 then
        { pl with y := ((trect.y - pl.height : Int) : ℚ), vel_y := 0,
                  on_ground := true, climbing := false }
      else if pl.vel_y < 0 then
        { pl with y := ((trect.y + trect.h : Int) : ℚ), vel_y := 0 }
      else pl
    else pl) p

/-- The platform scan of `Player.handle_vertical_collisions`: one-way
tiles catch a falling body whose (entry) bottom edge lies within 8 pixels
of the platform top. -/
def platformFold (rect : Rect) (tiles : List ((Int × Int) × Tile)) (p : Player) : Player :=
  tiles.foldl (fun pl t =>
    let trect := tileRect t.1.1 t.1.2
    if colliderect rect trect = true ∧ pl.vel_y > 0 ∧ rect.y + rect.h ≤ trect.y + 8 then
      { pl with y := ((trect.y - pl.height : Int) : ℚ), vel_y := 0,
                on_ground := true, climbing := false }
    else pl) p

/-- `Player.handle_vertical_collisions`: rectangle captured once at entry,
contact flags reset, then ladder, solid and platform scans in order. -/
def handleVerticalCollisions (lvl : Level) (p : Player) : Player :=
  let rect := playerRect p
  let p := { p with on_ground := false, on_ladder := false }
  let p := ladderFold rect (getLadderTiles lvl) p
  let p := solidFoldV rect (getSolidTiles lvl) p
  platformFold rect (getPlatformTiles lvl) p

/-- `Player.handle_vertical_collisions` with the platform scan removed:
reference point for the one-way platform claim. -/
def handleVerticalNoPlatforms (lvl : Level) (p : Player) : Player :=
  let rect := playerRect p
  let p := { p with on_ground := false, on_ladder := false }
  let p := ladderFold rect (getLadderTiles lvl) p
  solidFoldV rect (getSolidTiles lvl) p

/-- `Player.handle_level_boundaries`: clamp horizontally and at the top
only (falling off the bottom is allowed as a death condition). -/
def handleLevelBoundaries (lvl : Level) (p : Player) : Player :=
  let maxX : ℚ := ((lvl.width * tileSize - p.width : Int) : ℚ)
  let p := { p with x := max 0 (min p.x maxX) }
  let p := if p.y < 0 then { p with y := 0, vel_y := 0 } else p
  if p.x ≤ 0 ∨ p.x ≥ maxX then { p with vel_x := 0 } else p

/-- The loop body of `Player.check_hazards`: an overlapping hazard tile
costs one point of health, floored at zero. -/
def hazardStep (rect : Rect) (pl : Player) (t : (Int × Int) × Tile) : Player :=
  if colliderect rect (tileRect t.1.1 t.1.2) then
    let h := pl.health - 1
    { pl with health := if h ≤ 0 then 0 else h }
  else pl

/-- `Player.check_hazards`: one point of damage for every overlapping
hazard tile (rectangle captured once at entry). -/
def checkHazards (lvl : Level) (p : Player) : Player :=
  (getHazardTiles lvl).foldl (hazardStep (playerRect p)) p

/-- The attack-timer bookkeeping at the end of `Player.update`. -/
def playerAttackTimers (p : Player) : Player :=
  let p :=
    if p.attacking then
      let t := p.attack_timer - 1
      if t ≤ 0 then
        { p with attack_timer := t, attacking := false,
                 attack_cooldown_timer := p.attack_cooldown }
      else { p with attack_timer := t }
    else p
  if p.attack_cooldown_timer > 0 then
    { p with attack_cooldown_timer := p.attack_cooldown_timer - 1 }
  else p

/-- `Player.update`: intent, gravity, axis-by-axis movement with collision
resolution, boundary clamping, hazard damage, and attack timers. -/
def playerUpdate (keys : Keys) (lvl : Level) (p : Player) : Player :=
  let p := playerHorizontalInput keys p
  let p := playerClimbInput keys p
  let p := playerJumpInput keys p
  let p := playerGravity p
  let p := { p with x := p.x + p.vel_x }
  let p := handleHorizontalCollisions lvl p
  let p := { p with y := p.y + p.vel_y }
  let p := handleVerticalCollisions lvl p
  let p := handleLevelBoundaries lvl p
  let p := checkHazards lvl p
  playerAttackTimers p

/-- The ground scan of the patrol branch of `Enemy.update`: the enemy
rectangle is recomputed for every solid tile (the loop body re-reads
`self.get_rect()`), and only a falling enemy is stopped. -/
def enemySolidFold (tiles : List ((Int × Int) × Tile)) (e : Enemy) : Enemy :=
  tiles.foldl (fun en t =>
    let trect := tileRect t.1.1 t.1.2
    if colliderect (enemyRect en) trect then
      if en.vel_y > 0 then
        { en with y := ((trect.y - en.height : Int) : ℚ), vel_y := 0 }
      else en
    else en) e

/-- `Enemy.update`: AI dispatch on the type's `ai_type` tag. The Python
float square root used to normalize the chase direction is passed in as
`sq`; every property proved below either holds for any such function or
assumes only `sq 0 = 0`. -/
def enemyUpdate (sq : ℚ → ℚ) (player : Player) (lvl : Level) (e : Enemy) : Enemy :=
  if ¬e.alive then e
  else if e.etype.ai_type = ("stationary") then e
  else if e.etype.ai_type = ("patrol") then
    let e := { e with vel_x := e.etype.speed * (e.direction : ℚ) }
    let e :=
      if e.x ≥ e.start_x + e.patrol_range then { e with direction := -1 }
      else if e.x ≤ e.start_x - e.patrol_range then { e with direction := 1 }
      else e
    let e := { e with x := e.x + e.vel_x }
    let vy := e.vel_y + gravity
    let e := { e with vel_y := if vy > maxFallSpeed then maxFallSpeed else vy }
    let e := { e with y := e.y + e.vel_y }
    enemySolidFold (getSolidTiles lvl) e
  else if e.etype.ai_type = ("chase") then
    let dx := player.x - e.x
    let dy := player.y - e.y
    let distance := sq (dx ^ 2 + dy ^ 2)
    if distance > 0 then
      let e := { e with vel_x := dx / distance * e.etype.speed,
                        vel_y := dy / distance * e.etype.speed }
      { e with x := e.x + e.vel_x, y := e.y + e.vel_y }
    else e
  else if e.etype.ai_type = ("flying") then
    let dx := player.x - e.x
    let dy := player.y - e.y
    let distance := sq (dx ^ 2 + dy ^ 2)
    if distance > 0 ∧ distance < 300 then
      let e := { e with vel_x := dx / distance * e.etype.speed,
                        vel_y := dy / distance * e.etype.speed }
      { e with x := e.x + e.vel_x, y := e.y + e.vel_y }
    else e
  else e

/-- An enemy-type record as stored in a level file: the fields written by
the editor's save path, including the optional external behavior
reference (`behavior_script`). -/
structure EnemyTypeData where
  name : String
  image_path : Option String
  ai_type : String
  health : Int
  damage : Int
  speed : ℚ
  color : Int × Int × Int
  required : Bool
  behavior_script : Option String
  deriving DecidableEq, Repr

/-- The enemy-type loader of `Level.load_level` (game.py lines 564-575):
the engine's `EnemyType` is built from name, image path, AI tag, health,
damage, speed, color and the required flag, and from nothing else. -/
def loadEnemyType (eid : Int) (d : EnemyTypeData) : EnemyType :=
  { id := eid, name := d.name, image_path := d.image_path,
    ai_type := d.ai_type, health := d.health, damage := d.damage,
    speed := d.speed, color := d.color, required := d.required }

/-- The loop body of `Game.check_enemy_collisions`: an overlapping alive
enemy deals its contact damage (health floored at zero) and knocks the
player back laterally by the sign of the relative x. -/
def enemyContactStep (prect : Rect) (pl : Player) (e : Enemy) : Player :=
  if e.alive ∧ colliderect prect (enemyRect e) = true then
    let h := pl.health - e.etype.damage
    let pl := { pl with health := if h < 0 then 0 else h }
    if pl.x - e.x > 0 then { pl with x := pl.x + 10 }
    else { pl with x := pl.x - 10 }
  else pl

/-- `Game.check_enemy_collisions`: the player rectangle is captured once
at entry, then every enemy is processed in order. -/
def checkEnemyCollisions (p : Player) (lvl : Level) : Player :=
  lvl.enemies.foldl (enemyContactStep (playerRect p)) p

/-- Accumulator of `Game.check_collectible_collisions`: the rebuilt
collectible list together with the player and the level counters the loop
mutates. -/
structure CollectAcc where
  collectibles : List Collectible
  player : Player
  score : Int
  keysCollected : Int
  reqCollected : Int
  deriving DecidableEq, Repr

/-- The loop of `Game.check_collectible_collisions`: skip collected
instances; on first overlap set the one-shot flag, count it when its type
is required, and apply its effect (health capped at max; score and keys
additive; powerup inert). -/
def collectLoop (prect : Rect) (cs : List Collectible) (p : Player)
    (score keysC reqC : Int) : CollectAcc :=
  match cs with
  | [] => ⟨[], p, score, keysC, reqC⟩
  | c :: rest =>
    if c.collected then
      let acc := collectLoop prect rest p score keysC reqC
      { acc with collectibles := c :: acc.collectibles }
    else if colliderect prect (collectibleRect c) then
      let c2 := { c with collected := true }
      let reqC2 := if c.ctype.required then reqC + 1 else reqC
      let p2 :=
        if c.ctype.effect = ("health") then
          { p with health := min p.max_health (p.health + c.ctype.value) }
        else p
      let score2 := if c.ctype.effect = ("score") then score + c.ctype.value else score
      let keysC2 := if c.ctype.effect = ("key") then keysC + c.ctype.value else keysC
      let acc := collectLoop prect rest p2 score2 keysC2 reqC2
      { acc with collectibles := c2 :: acc.collectibles }
    else
      let acc := collectLoop prect rest p score keysC reqC
      { acc with collectibles := c :: acc.collectibles }

/-- `Game.check_collectible_collisions`: run the loop over the level's
collectibles and write the results back. -/
def checkCollectibleCollisions (p : Player) (lvl : Level) : Player × Level :=
  let acc := collectLoop (playerRect p) lvl.collectibles p
    lvl.score lvl.keys_collected lvl.required_collectibles_collected
  (acc.player,
   { lvl with collectibles := acc.collectibles, score := acc.score,
              keys_collected := acc.keysCollected,
              required_collectibles_collected := acc.reqCollected })

/-- The damage-plus-knockback applied to the single enemy hit by the
sword in `Game.check_player_attack_collisions`. -/
def attackHit (p : Player) (e : Enemy) : Enemy :=
  let e2 := takeDamage e p.attack_damage
  if p.facing_right then { e2 with x := e2.x + 15 } else { e2 with x := e2.x - 15 }

/-- Whether the sword hitbox affects an enemy: alive and overlapping. -/
def hitPred (p : Player) (e : Enemy) : Bool :=
  e.alive && colliderect (attackRect p) (enemyRect e)

/-- The required-kill increment for a sword hit: the enemy was alive and
required and the blow killed it. -/
def killInc (p : Player) (e : Enemy) : Int :=
  if e.alive ∧ e.etype.required ∧ ¬(takeDamage e p.attack_damage).alive then 1 else 0

/-- The loop of `Game.check_player_attack_collisions`: skip dead enemies,
and stop at the first overlapping one (the `break` in the source) after
damaging it, counting a required kill, and knocking it back. -/
def attackLoop (p : Player) (es : List Enemy) (killed : Int) : List Enemy × Int :=
  match es with
  | [] => ([], killed)
  | e :: rest =>
    if ¬e.alive then
      let r := attackLoop p rest killed
      (e :: r.1, r.2)
    else if colliderect (attackRect p) (enemyRect e) then
      (attackHit p e :: rest, killed + killInc p e)
    else
      let r := attackLoop p rest killed
      (e :: r.1, r.2)

/-- `Game.check_player_attack_collisions`: nothing happens unless the
player is attacking; otherwise the loop runs over the level's enemies. -/
def checkPlayerAttackCollisions (p : Player) (lvl : Level) : Level :=
  if ¬p.attacking then lvl
  else
    let r := attackLoop p lvl.enemies lvl.required_enemies_killed
    { lvl with enemies := r.1, required_enemies_killed := r.2 }

/-- `Game.check_end_level_collision`: `False` while requirements are not
met, otherwise overlap with any `end_level` tile. -/
def checkEndLevelCollision (p : Player) (lvl : Level) : Bool :=
  if ¬allRequirementsMet lvl then false
  else
    (getEndLevelTiles lvl).any (fun t =>
      colliderect (playerRect p) (tileRect t.1.1 t.1.2))

/-- `Game.check_player_death`: game over on exhausted health, or on
falling past the level's bottom edge (which also zeroes health). -/
def checkPlayerDeath (p : Player) (lvl : Level) : Bool × Player :=
  if p.health ≤ 0 then (true, p)
  else if p.y > ((lvl.height * tileSize : Int) : ℚ) then (true, { p with health := 0 })
  else (false, p)

/-- A level with no tiles, enemies or collectibles, used as a neutral
environment for single-entity scenarios. -/
def emptyLevel : Level :=
  { width := 1000, height := 1000, tile_types := [],
    backgroundTiles := [], mainTiles := [], foregroundTiles := [],
    enemies := [], collectibles := [], score := 0, keys_collected := 0,
    required_collectibles_total := 0, required_collectibles_collected := 0,
    required_enemies_total := 0, required_enemies_killed := 0 }

/-- A tile type carrying exactly one property tag. -/
def oneTagType (tag : String) : TileType :=
  { id := 1, name := tag, image_path := none, properties := [tag],
    color := (200, 200, 200) }

/-- A level whose only tile is a single platform tile at `(tx, ty)` on the
main layer. -/
def onePlatformLevel (tx ty : Int) : Level :=
  { emptyLevel with
    tile_types := [(1, oneTagType ("platform"))],
    mainTiles := [((tx, ty), { tile_type_id := 1, layer := ("main") })] }

/-- A level with a single hazard tile at the origin. -/
def oneHazardLevel : Level :=
  { emptyLevel with
    tile_types := [(1, oneTagType ("hazard"))],
    mainTiles := [((0, 0), { tile_type_id := 1, layer := ("main") })] }

/-- A level with two vertically stacked hazard tiles at the origin. -/
def twoHazardLevel : Level :=
  { emptyLevel with
    tile_types := [(1, oneTagType ("hazard"))],
    mainTiles := [((0, 0), { tile_type_id := 1, layer := ("main") }),
                  ((0, 1), { tile_type_id := 1, layer := ("main") })] }

/-- A player with 5 health standing over the origin tile. -/
def player5 : Player := { mkPlayer 1 2 with health := 5 }

/-- The hazard scenario: the 5-health player sitting in the single hazard
tile for `n` consecutive ticks of hazard contact. -/
def hazardScenario (n : ℕ) : Player := (checkHazards oneHazardLevel)^[n] player5

/-- The number of hazard tiles the player's rectangle overlaps. -/
def hazardHits (lvl : Level) (p : Player) : Int :=
  ((getHazardTiles lvl).filter (fun t =>
    colliderect (playerRect p) (tileRect t.1.1 t.1.2))).length

/-- The one-instance collection rule of `check_collectible_collisions`:
an uncollected overlapping instance gets its one-shot flag set; every
other instance is untouched. -/
def collectMark (prect : Rect) (c : Collectible) : Collectible :=
  if ¬c.collected ∧ colliderect prect (collectibleRect c) = true then
    { c with collected := true }
  else c

/-- The enemy type of the patrol scenario: AI kind patrol, speed 2. -/
def patrolType : EnemyType :=
  { id := 1, name := ("walker"), image_path := none, ai_type := ("patrol"),
    health := 50, damage := 10, speed := 2, color := (255, 0, 0),
    required := false }

/-- The patrol-scenario enemy: spawn x 100, patrol range 50. -/
def patrolEnemy0 : Enemy := mkEnemy 100 0 patrolType 50

/-- One engine tick of the patrol-scenario enemy in an empty level (the
square-root callback is irrelevant to the patrol branch). -/
def patrolStepFn (e : Enemy) : Enemy :=
  enemyUpdate (fun _ => 0) (mkPlayer 0 0) emptyLevel e

/-- The patrol-scenario trajectory after `n` engine ticks. -/
def patrolTraj (n : ℕ) : Enemy := patrolStepFn^[n] patrolEnemy0

/-- The horizontal component of the patrol step for speed 2, spawn x 100,
range 50 (exact integer arithmetic): the new x uses the pre-flip
direction, the direction is set by the boundary test on the pre-move x. -/
def patrolXD (s : Int × Int) : Int × Int :=
  (s.1 + 2 * s.2,
   if s.1 ≥ 150 then -1 else if s.1 ≤ 50 then 1 else s.2)

/-- The horizontal patrol trajectory of the scenario. -/
def pureTraj (n : ℕ) : Int × Int := patrolXD^[n] (100, 1)

/-- The up-only input intent. -/
def upKeys : Keys := { left := false, right := false, up := true, down := false }

/-- A player standing on the ground at the base of a ladder: grounded,
overlapping a ladder, not climbing. -/
def ladderBasePlayer : Player :=
  { mkPlayer 50 100 with on_ground := true, on_ladder := true, climbing := false }

/-- A grounded player away from any ladder. -/
def groundPlayer : Player := { mkPlayer 1 2 with on_ground := true }

/-- An attacking player at the origin facing right. -/
def attackPlayer : Player := { mkPlayer 0 0 with attacking := true }

/-- A stationary enemy type for interaction scenarios. -/
def meleeType : EnemyType :=
  { id := 2, name := ("blob"), image_path := none, ai_type := ("stationary"),
    health := 50, damage := 10, speed := 1, color := (0, 255, 0), required := false }

/-- First enemy inside the sword hitbox. -/
def enemyA : Enemy := mkEnemy 20 0 meleeType 100

/-- Second enemy inside the sword hitbox. -/
def enemyB : Enemy := mkEnemy 30 0 meleeType 100

/-- A level containing two enemies that both overlap the sword hitbox. -/
def attackLevel : Level := { emptyLevel with enemies := [enemyA, enemyB] }

end Castles

namespace Castles

/-- Helper: membership characterization of a `List.any` over tile scans. -/
theorem any_collide_iff (p : Player) (ts : List ((Int × Int) × Tile)) :
    (ts.any (fun t => colliderect (playerRect p) (tileRect t.1.1 t.1.2)) = true) ↔
    ∃ t ∈ ts, colliderect (playerRect p) (tileRect t.1.1 t.1.2) = true := by
  simp [List.any_eq_true]

/-- C1: on any tick, the end-level check fires exactly when both
requirement counters have reached their totals and the player's bounding
box overlaps some `end_level` tile; while either counter is short the
check can never fire, and once both are met any overlap fires it. -/
theorem exit_gating_iff (p : Player) (lvl : Level) :
    checkEndLevelCollision p lvl = true ↔
      ((lvl.required_collectibles_collected ≥ lvl.required_collectibles_total ∧
        lvl.required_enemies_killed ≥ lvl.required_enemies_total) ∧
       ∃ t ∈ getEndLevelTiles lvl,
         colliderect (playerRect p) (tileRect t.1.1 t.1.2) = true) := by
  unfold checkEndLevelCollision
  by_cases h : allRequirementsMet lvl = true
  · have hreq : lvl.required_collectibles_collected ≥ lvl.required_collectibles_total ∧
        lvl.required_enemies_killed ≥ lvl.required_enemies_total := by
      simpa [allRequirementsMet] using h
    simp [h, any_collide_iff, hreq]
  · have hreq : ¬(lvl.required_collectibles_collected ≥ lvl.required_collectibles_total ∧
        lvl.required_enemies_killed ≥ lvl.required_enemies_total) := by
      simpa [allRequirementsMet] using h
    simp [h, hreq]

/-- C3: the engine ignores external behavior references entirely.  The
enemy-type loader of `Level.load_level` reads name, image path, AI tag,
health, damage, speed, color and the required flag and nothing else, so
two stored enemy types differing only in their `behavior_script` load to
the same engine type, and every tick of every enemy proceeds by built-in
AI-kind dispatch irrespective of the reference. -/
theorem behavior_script_ignored (eid : Int) (d : EnemyTypeData)
    (bs : Option String) (sq : ℚ → ℚ) (player : Player) (lvl : Level)
    (x y pr : ℚ) :
    loadEnemyType eid { d with behavior_script := bs } = loadEnemyType eid d ∧
    enemyUpdate sq player lvl (mkEnemy x y (loadEnemyType eid { d with behavior_script := bs }) pr) =
      enemyUpdate sq player lvl (mkEnemy x y (loadEnemyType eid d) pr) := by
  constructor <;> rfl

/-- C10: a chase or flying enemy standing exactly at the player's position
is left unchanged by its update: the direction-normalizing division is
guarded by a strict `distance > 0` test, and the float square root sends 0
to 0, so the zero-distance tick is a no-op. -/
theorem chase_zero_distance (sq : ℚ → ℚ) (player : Player) (lvl : Level)
    (e : Enemy) (hsq : sq 0 = 0)
    (hai : e.etype.ai_type = ("chase") ∨ e.etype.ai_type = ("flying"))
    (hx : e.x = player.x) (hy : e.y = player.y) :
    enemyUpdate sq player lvl e = e := by
  have hdx : player.x - e.x = 0 := by rw [hx]; ring
  have hdy : player.y - e.y = 0 := by rw [hy]; ring
  rcases hai with hai | hai <;>
    · unfold enemyUpdate
      rw [hai]
      simp [hdx, hdy, hsq]

/-- Helper: the hazard loop takes one point of health per overlapping
tile, flooring at zero after each hit; starting from nonnegative health
this is exactly a floored subtraction of the overlap count. -/
theorem hazardFold_health (r : Rect) (ts : List ((Int × Int) × Tile))
    (pl : Player) (h : 0 ≤ pl.health) :
    (ts.foldl (hazardStep r) pl).health =
      max (pl.health -
        ((ts.filter (fun t => colliderect r (tileRect t.1.1 t.1.2))).length : Int)) 0 := by
  induction ts generalizing pl with
  | nil =>
    simp only [List.foldl_nil, List.filter_nil, List.length_nil, Int.natCast_zero]
    omega
  | cons t rest ih =>
    by_cases hc : colliderect r (tileRect t.1.1 t.1.2) = true
    · have hstep : hazardStep r pl t =
          { pl with health := if pl.health - 1 ≤ 0 then 0 else pl.health - 1 } := by
        simp [hazardStep, hc]
      have hnn : (0 : Int) ≤ (if pl.health - 1 ≤ 0 then 0 else pl.health - 1) := by
        split <;> omega
      have hfilt : List.filter (fun s => colliderect r (tileRect s.1.1 s.1.2)) (t :: rest) =
          t :: List.filter (fun s => colliderect r (tileRect s.1.1 s.1.2)) rest :=
        List.filter_cons_of_pos hc
      rw [List.foldl_cons, hstep, ih _ hnn, hfilt]
      simp only [List.length_cons]
      push_cast
      split <;> omega
    · have hstep : hazardStep r pl t = pl := by simp [hazardStep, hc]
      have hfilt : List.filter (fun s => colliderect r (tileRect s.1.1 s.1.2)) (t :: rest) =
          List.filter (fun s => colliderect r (tileRect s.1.1 s.1.2)) rest :=
        List.filter_cons_of_neg hc
      rw [List.foldl_cons, hstep, ih _ h, hfilt]

/-- Helper: the hazard loop never changes the maximal health. -/
theorem hazardFold_max_health (r : Rect) (ts : List ((Int × Int) × Tile)) (pl : Player) :
    (ts.foldl (hazardStep r) pl).max_health = pl.max_health := by
  induction ts generalizing pl with
  | nil => simp
  | cons t rest ih =>
    rw [List.foldl_cons, ih]
    unfold hazardStep
    split <;> rfl

/-- C2 (amended): on a tick of hazard contact the player loses one point
of health for every overlapping hazard-tagged tile (so exactly one when
exactly one tile overlaps), floored at zero; the 5-health player sitting
in a single hazard tile reaches 1 after 4 ticks and exactly 0 — not
negative — after 5, and the death check fires on that tick and not
before. -/
theorem hazard_damage_per_tile (p : Player) (lvl : Level) (h : 0 ≤ p.health) :
    (checkHazards lvl p).health = max (p.health - hazardHits lvl p) 0 ∧
    (hazardScenario 4).health = 1 ∧
    (hazardScenario 5).health = 0 ∧
    (checkPlayerDeath (hazardScenario 5) oneHazardLevel).1 = true ∧
    (checkPlayerDeath (hazardScenario 4) oneHazardLevel).1 = false := by
  refine ⟨?_, by decide, by decide, by decide, by decide⟩
  unfold checkHazards hazardHits
  exact hazardFold_health _ _ _ h

/-- Witness for C2 (amended) at the concrete scenario player. -/
theorem hazard_damage_per_tile_witness :
    (0 : Int) ≤ player5.health ∧
    (checkHazards oneHazardLevel player5).health =
      max (player5.health - hazardHits oneHazardLevel player5) 0 := by
  exact ⟨by decide, (hazard_damage_per_tile player5 oneHazardLevel (by decide)).1⟩

/-- C2 counterexample: a 14x28 player overlapping two stacked 16x16
hazard tiles loses two points of health in a single tick, not exactly
one. -/
theorem hazard_two_tiles_counterexample :
    (checkHazards twoHazardLevel player5).health = 3 ∧
    (checkHazards twoHazardLevel player5).health ≠ player5.health - 1 := by
  decide

/-- Helper: the ladder scan never changes the vertical velocity. -/
theorem ladderFold_vel_y (r : Rect) (ts : List ((Int × Int) × Tile)) (p : Player) :
    (ladderFold r ts p).vel_y = p.vel_y := by
  induction ts generalizing p with
  | nil => rfl
  | cons t rest ih =>
    unfold ladderFold at ih ⊢
    rw [List.foldl_cons, ih]
    split <;> rfl

/-- Helper: the solid scan keeps a nonpositive vertical velocity
nonpositive (a rising body is stopped, never redirected downward). -/
theorem solidFoldV_vel_nonpos (r : Rect) (ts : List ((Int × Int) × Tile))
    (p : Player) (h : p.vel_y ≤ 0) : (solidFoldV r ts p).vel_y ≤ 0 := by
  induction ts generalizing p with
  | nil => exact h
  | cons t rest ih =>
    unfold solidFoldV at ih ⊢
    rw [List.foldl_cons]
    apply ih
    simp only
    split
    · split
      · simp
      · split
        · simp
        · exact h
    · exact h

/-- Helper: a body that is not falling passes through every platform tile:
the platform scan is the identity. -/
theorem platformFold_id (r : Rect) (ts : List ((Int × Int) × Tile))
    (p : Player) (h : p.vel_y ≤ 0) : platformFold r ts p = p := by
  induction ts generalizing p with
  | nil => rfl
  | cons t rest ih =>
    unfold platformFold at ih ⊢
    rw [List.foldl_cons]
    have hcond : ¬(colliderect r (tileRect t.1.1 t.1.2) = true ∧ p.vel_y > 0 ∧
        r.y + r.h ≤ (tileRect t.1.1 t.1.2).y + 8) := by
      rintro ⟨-, hv, -⟩
      exact absurd hv (by simpa using h)
    simp only [hcond, if_false, if_neg hcond]
    exact ih p h

/-- C4: one-way platform semantics.  In a level whose only tile is a
platform tile, vertical resolution stops the player exactly when the
player overlaps the tile, is moving downward, and the bottom edge of the
entry rectangle is within 8 pixels below the platform top (then the body
snaps flush to the platform top, vertical velocity becomes 0 and the
ground flag is set); and for every level, a player that is not moving
downward resolves exactly as if no platform tiles existed. -/
theorem platform_one_way (p : Player) (tx ty : Int) (lvl : Level) :
    (handleVerticalCollisions (onePlatformLevel tx ty) p =
      if colliderect (playerRect p) (tileRect tx ty) = true ∧ p.vel_y > 0 ∧
          (playerRect p).y + (playerRect p).h ≤ (tileRect tx ty).y + 8 then
        { p with y := (((tileRect tx ty).y - p.height : Int) : ℚ), vel_y := 0,
                 on_ground := true, on_ladder := false, climbing := false }
      else { p with on_ground := false, on_ladder := false }) ∧
    (p.vel_y ≤ 0 → handleVerticalCollisions lvl p = handleVerticalNoPlatforms lvl p) := by
  constructor
  · have hlad : getLadderTiles (onePlatformLevel tx ty) = [] := rfl
    have hsol : getSolidTiles (onePlatformLevel tx ty) = [] := rfl
    have hpla : getPlatformTiles (onePlatformLevel tx ty) =
        [((tx, ty), { tile_type_id := 1, layer := ("main") })] := rfl
    by_cases hcond : colliderect (playerRect p) (tileRect tx ty) = true ∧ p.vel_y > 0 ∧
        (playerRect p).y + (playerRect p).h ≤ (tileRect tx ty).y + 8
    · rw [if_pos hcond]
      simp [handleVerticalCollisions, hlad, hsol, hpla, ladderFold, solidFoldV,
        platformFold, hcond.1, hcond.2.1, hcond.2.2]
    · rw [if_neg hcond]
      simp only [handleVerticalCollisions, hlad, hsol, hpla, ladderFold, solidFoldV,
        platformFold, List.foldl_nil, List.foldl_cons]
      rw [if_neg]
      intro hc
      exact hcond ⟨hc.1, hc.2.1, hc.2.2⟩
  · intro hvy
    unfold handleVerticalCollisions handleVerticalNoPlatforms
    apply platformFold_id
    apply solidFoldV_vel_nonpos
    rw [ladderFold_vel_y]
    exact hvy

/-- Witness for C4 at a concrete falling player over a platform tile and
a concrete rising player. -/
theorem platform_one_way_witness :
    ((mkPlayer 1 10).vel_y ≤ 0) ∧
    handleVerticalCollisions emptyLevel (mkPlayer 1 10) =
      handleVerticalNoPlatforms emptyLevel (mkPlayer 1 10) ∧
    handleVerticalCollisions (onePlatformLevel 0 3) { mkPlayer 1 22 with vel_y := 4 } =
      { mkPlayer 1 22 with vel_y := 0, y := 20, on_ground := true } := by
  refine ⟨by decide, (platform_one_way (mkPlayer 1 10) 0 0 emptyLevel).2 (by decide), ?_⟩
  have h := (platform_one_way { mkPlayer 1 22 with vel_y := 4 } 0 3 (onePlatformLevel 0 3)).1
  rw [h]
  decide

/-- Witness for C10 at a concrete zero-distance configuration. -/
theorem chase_zero_distance_witness :
    (fun (_ : ℚ) => (0 : ℚ)) 0 = 0 ∧
    enemyUpdate (fun _ => 0) (mkPlayer 5 7) emptyLevel
      (mkEnemy 5 7 { patrolType with ai_type := ("chase") } 50) =
      mkEnemy 5 7 { patrolType with ai_type := ("chase") } 50 := by
  refine ⟨rfl, chase_zero_distance _ _ _ _ rfl (Or.inl rfl) rfl rfl⟩

set_option maxRecDepth 8000 in
/-- Helper: one patrol tick of the scenario enemy, projected to its
horizontal position and direction, matches the integer patrol step, and
preserves the type, aliveness, spawn x and patrol range. -/
theorem patrol_step_proj (e : Enemy) (hE : e.etype = patrolType) (ha : e.alive = true)
    (hs : e.start_x = 100) (hr : e.patrol_range = 50) :
    (patrolStepFn e).x = e.x + 2 * (e.direction : ℚ) ∧
    (patrolStepFn e).direction =
      (if e.x ≥ 150 then (-1 : Int) else if e.x ≤ 50 then 1 else e.direction) ∧
    (patrolStepFn e).etype = patrolType ∧
    (patrolStepFn e).alive = true ∧
    (patrolStepFn e).start_x = 100 ∧
    (patrolStepFn e).patrol_range = 50 := by
  have h1 : (100 : ℚ) + 50 = 150 := by norm_num
  have h2 : (100 : ℚ) - 50 = 50 := by norm_num
  unfold patrolStepFn enemyUpdate
  simp only [hE, ha, hs, hr, patrolType, not_true, Bool.not_eq_true, String.reduceEq,
    if_false, if_true, ite_true, ite_false]
  simp only [emptyLevel, getSolidTiles, tilesWithProperty, layerWithProperty,
    List.filter_nil, List.append_nil, enemySolidFold, List.foldl_nil, h1, h2]
  split_ifs <;> simp

/-- Helper: the engine patrol trajectory projects onto the integer patrol
trajectory, tick for tick. -/
theorem patrolTraj_proj (n : ℕ) :
    (patrolTraj n).etype = patrolType ∧ (patrolTraj n).alive = true ∧
    (patrolTraj n).start_x = 100 ∧ (patrolTraj n).patrol_range = 50 ∧
    (patrolTraj n).x = ((pureTraj n).1 : ℚ) ∧
    (patrolTraj n).direction = (pureTraj n).2 := by
  induction n with
  | zero =>
    refine ⟨rfl, rfl, rfl, rfl, ?_, rfl⟩
    norm_num [patrolTraj, patrolEnemy0, pureTraj, mkEnemy]
  | succ n ih =>
    obtain ⟨hE, ha, hs, hr, hx, hd⟩ := ih
    have hstep := patrol_step_proj (patrolTraj n) hE ha hs hr
    have hnext : patrolTraj (n + 1) = patrolStepFn (patrolTraj n) := by
      rw [patrolTraj, patrolTraj, Function.iterate_succ_apply']
    have hpure : pureTraj (n + 1) = patrolXD (pureTraj n) := by
      rw [pureTraj, pureTraj, Function.iterate_succ_apply']
    rw [hnext]
    refine ⟨hstep.2.2.1, hstep.2.2.2.1, hstep.2.2.2.2.1, hstep.2.2.2.2.2, ?_, ?_⟩
    · rw [hstep.1, hx, hd, hpure]
      unfold patrolXD
      push_cast
      ring
    · rw [hstep.2.1, hx, hd, hpure]
      unfold patrolXD
      have c1 : (((pureTraj n).1 : ℚ) ≥ 150) ↔ ((pureTraj n).1 ≥ 150) := by
        exact_mod_cast Iff.rfl
      have c2 : (((pureTraj n).1 : ℚ) ≤ 50) ↔ ((pureTraj n).1 ≤ 50) := by
        exact_mod_cast Iff.rfl
      rw [if_congr c1 rfl (if_congr c2 rfl rfl)]

set_option maxRecDepth 8000 in
/-- Helper: the integer patrol trajectory is periodic with period 104. -/
theorem pureTraj_period (n : ℕ) : pureTraj (n + 104) = pureTraj n := by
  have h104 : pureTraj 104 = (100, 1) := by decide
  show patrolXD^[n + 104] (100, 1) = pureTraj n
  rw [Function.iterate_add_apply]
  exact congrArg _ h104

/-- Helper: the integer patrol trajectory reduced modulo the period. -/
theorem pureTraj_mod (n : ℕ) : pureTraj n = pureTraj (n % 104) := by
  induction n using Nat.strong_induction_on with
  | _ n ih =>
    by_cases h : n < 104
    · rw [Nat.mod_eq_of_lt h]
    · have hn : n = (n - 104) + 104 := by omega
      have hm : n % 104 = (n - 104) % 104 := by omega
      rw [hn, pureTraj_period, ih (n - 104) (by omega)]
      have harg : ((n - 104) + 104) % 104 = (n - 104) % 104 := by omega
      rw [harg]

set_option maxRecDepth 100000 in
/-- Helper: over one period, the integer patrol x stays within [48, 152]
and the direction changes exactly at x = 150 (going right) and x = 50
(going left). -/
theorem pureTraj_cycle_facts (r : ℕ) (h : r < 104) :
    (48 ≤ (pureTraj r).1 ∧ (pureTraj r).1 ≤ 152) ∧
    ((patrolXD (pureTraj r)).2 ≠ (pureTraj r).2 ↔
      ((pureTraj r).1 = 150 ∧ (pureTraj r).2 = 1) ∨
      ((pureTraj r).1 = 50 ∧ (pureTraj r).2 = -1)) := by
  revert r
  decide

set_option maxRecDepth 8000 in
/-- C7 counterexample: the patrol enemy with speed 2, spawn x 100 and
range 50 overshoots the stated bounds: on tick 26 its x is 152, outside
[50, 150] — the tick after the flip still moves with the pre-flip
velocity. -/
theorem patrol_overshoot_counterexample :
    (patrolTraj 26).x = 152 ∧ ¬((patrolTraj 26).x ≤ 150) := by
  have hx := (patrolTraj_proj 26).2.2.2.2.1
  have hp : (pureTraj 26).1 = 152 := by decide
  rw [hx, hp]
  norm_num

/-- C7 (amended): each engine tick of the patrol scenario (speed 2, spawn
x 100, range 50) adds speed times the pre-flip direction to x; the
direction changes exactly on the ticks where x is 150 (moving right) or
50 (moving left); x remains within [48, 152] forever — overshooting each
flip threshold by one 2-pixel step — and both x and direction are
periodic with period 104, so the enemy oscillates indefinitely without
drift. -/
theorem patrol_oscillation (n : ℕ) :
    (patrolTraj (n + 1)).x = (patrolTraj n).x + 2 * ((patrolTraj n).direction : ℚ) ∧
    ((patrolTraj (n + 1)).direction ≠ (patrolTraj n).direction ↔
      ((patrolTraj n).x = 150 ∧ (patrolTraj n).direction = 1) ∨
      ((patrolTraj n).x = 50 ∧ (patrolTraj n).direction = -1)) ∧
    (48 : ℚ) ≤ (patrolTraj n).x ∧ (patrolTraj n).x ≤ 152 ∧
    (patrolTraj (n + 104)).x = (patrolTraj n).x ∧
    (patrolTraj (n + 104)).direction = (patrolTraj n).direction := by
  have hxn := (patrolTraj_proj n).2.2.2.2.1
  have hdn := (patrolTraj_proj n).2.2.2.2.2
  have hxs := (patrolTraj_proj (n + 1)).2.2.2.2.1
  have hds := (patrolTraj_proj (n + 1)).2.2.2.2.2
  have hxp := (patrolTraj_proj (n + 104)).2.2.2.2.1
  have hdp := (patrolTraj_proj (n + 104)).2.2.2.2.2
  have hstep : pureTraj (n + 1) = patrolXD (pureTraj n) := by
    rw [pureTraj, pureTraj, Function.iterate_succ_apply']
  have hmod := pureTraj_mod n
  have hlt : n % 104 < 104 := Nat.mod_lt _ (by norm_num)
  have hcycle := pureTraj_cycle_facts (n % 104) hlt
  refine ⟨?_, ?_, ?_, ?_, ?_, ?_⟩
  · rw [hxs, hxn, hdn, hstep]
    unfold patrolXD
    push_cast
    ring
  · rw [hds, hdn, hxn, hstep]
    have c150 : (((pureTraj n).1 : ℚ) = 150) ↔ ((pureTraj n).1 = 150) := by
      exact_mod_cast Iff.rfl
    have c50 : (((pureTraj n).1 : ℚ) = 50) ↔ ((pureTraj n).1 = 50) := by
      exact_mod_cast Iff.rfl
    rw [c150, c50]
    rw [← hmod] at hcycle
    exact hcycle.2
  · rw [hxn, hmod]
    exact_mod_cast hcycle.1.1
  · rw [hxn, hmod]
    exact_mod_cast hcycle.1.2
  · rw [hxp, hxn, pureTraj_period]
  · rw [hdp, hdn, pureTraj_period]

/-- C9 counterexample: a grounded, non-climbing player standing at a
ladder base who presses up does not jump — the update leaves the climb
velocity -3 (the climb speed), not -10 (the jump strength), because the
source gates the jump on `not on_ladder`, not on `not climbing`. -/
theorem jump_on_ladder_counterexample :
    upKeys.up = true ∧
    ladderBasePlayer.on_ground = true ∧
    ladderBasePlayer.climbing = false ∧
    (playerUpdate upKeys emptyLevel ladderBasePlayer).vel_y = -3 ∧
    (playerUpdate upKeys emptyLevel ladderBasePlayer).vel_y ≠
      -ladderBasePlayer.jump_strength := by
  have hv : (playerUpdate upKeys emptyLevel ladderBasePlayer).vel_y = -3 := by
    norm_num [playerUpdate, playerHorizontalInput, playerClimbInput, playerJumpInput,
      playerGravity, handleHorizontalCollisions, handleVerticalCollisions,
      handleLevelBoundaries, checkHazards, playerAttackTimers, ladderFold, solidFoldV,
      platformFold, getSolidTiles, getLadderTiles, getPlatformTiles, getHazardTiles,
      tilesWithProperty, layerWithProperty, emptyLevel, ladderBasePlayer, upKeys,
      mkPlayer, maxFallSpeed, gravity, tileSize, min_def, max_def]
  refine ⟨rfl, rfl, rfl, hv, ?_⟩
  rw [hv]
  norm_num [ladderBasePlayer, mkPlayer]

/-- C9 (amended): the jump input triggers a jump — vertical velocity set
to the negated jump strength and the grounded flag cleared — exactly when
the player is grounded and not on a ladder (the `on_ladder` flag, not the
`climbing` flag); otherwise the jump step is a no-op, and with the up key
held on a ladder the climb step starts climbing at climb speed instead. -/
theorem jump_condition (keys : Keys) (p : Player) :
    (keys.up = true ∧ p.on_ground = true ∧ p.on_ladder = false →
      playerJumpInput keys p =
        { p with vel_y := -p.jump_strength, on_ground := false }) ∧
    (¬(keys.up = true ∧ p.on_ground = true ∧ p.on_ladder = false) →
      playerJumpInput keys p = p) ∧
    (p.on_ladder = true → keys.up = true →
      playerClimbInput keys p = { p with climbing := true, vel_y := -p.speed }) := by
  refine ⟨?_, ?_, ?_⟩
  · rintro ⟨h1, h2, h3⟩
    unfold playerJumpInput
    rw [if_pos ⟨h1, h2, by simp [h3]⟩]
  · intro h
    unfold playerJumpInput
    rw [if_neg]
    intro hc
    exact h ⟨hc.1, hc.2.1, by simpa using hc.2.2⟩
  · intro hl hu
    unfold playerClimbInput
    rw [if_pos hl, if_pos hu]

/-- Witness for C9 (amended) at concrete grounded and on-ladder players. -/
theorem jump_condition_witness :
    (upKeys.up = true ∧ groundPlayer.on_ground = true ∧ groundPlayer.on_ladder = false) ∧
    playerJumpInput upKeys groundPlayer =
      { groundPlayer with vel_y := -groundPlayer.jump_strength, on_ground := false } ∧
    ladderBasePlayer.on_ladder = true ∧
    playerClimbInput upKeys ladderBasePlayer =
      { ladderBasePlayer with climbing := true, vel_y := -ladderBasePlayer.speed } := by
  refine ⟨⟨rfl, rfl, rfl⟩, ?_, rfl, ?_⟩
  · exact (jump_condition upKeys groundPlayer).1 ⟨rfl, rfl, rfl⟩
  · exact (jump_condition upKeys ladderBasePlayer).2.2 rfl rfl

/-- Helper: when no enemy is both alive and overlapping the sword hitbox,
the attack loop changes nothing. -/
theorem attackLoop_no_hit (p : Player) (es : List Enemy) (k : Int)
    (h : ∀ e ∈ es, hitPred p e = false) : attackLoop p es k = (es, k) := by
  induction es with
  | nil => rfl
  | cons e rest ih =>
    have he : hitPred p e = false := h e (List.mem_cons_self e rest)
    have hrest : ∀ e2 ∈ rest, hitPred p e2 = false :=
      fun e2 hm => h e2 (List.mem_cons_of_mem e hm)
    have hab : e.alive = false ∨ colliderect (attackRect p) (enemyRect e) = false :=
      Bool.and_eq_false_iff.mp (by simpa [hitPred] using he)
    simp only [attackLoop]
    rcases hab with ha | hc
    · rw [if_pos (by simp [ha])]
      simp [ih hrest]
    · by_cases ha : e.alive = true
      · rw [if_neg (by simp [ha]), if_neg (by simp [hc])]
        simp [ih hrest]
      · rw [if_pos ha]
        simp [ih hrest]

/-- Helper: the attack loop stops at the first alive overlapping enemy:
that enemy alone is damaged and knocked back, the kill counter takes that
enemy's increment, and every enemy before and after it is untouched. -/
theorem attackLoop_first_hit (p : Player) (pre : List Enemy) (e : Enemy)
    (post : List Enemy) (k : Int)
    (hpre : ∀ e2 ∈ pre, hitPred p e2 = false) (he : hitPred p e = true) :
    attackLoop p (pre ++ e :: post) k = (pre ++ attackHit p e :: post, k + killInc p e) := by
  induction pre with
  | nil =>
    have hac : e.alive = true ∧ colliderect (attackRect p) (enemyRect e) = true := by
      simpa [hitPred] using he
    rw [List.nil_append, List.nil_append]
    simp only [attackLoop]
    rw [if_neg (by simp [hac.1]), if_pos hac.2]
  | cons q pre ih =>
    have hq : hitPred p q = false := hpre q (List.mem_cons_self q pre)
    have hrest : ∀ e2 ∈ pre, hitPred p e2 = false :=
      fun e2 hm => hpre e2 (List.mem_cons_of_mem q hm)
    have ihr := ih hrest
    have hab : q.alive = false ∨ colliderect (attackRect p) (enemyRect q) = false :=
      Bool.and_eq_false_iff.mp (by simpa [hitPred] using hq)
    rw [List.cons_append, List.cons_append]
    simp only [attackLoop]
    rcases hab with ha | hc
    · rw [if_pos (by simp [ha])]
      simp [ihr]
    · by_cases ha : q.alive = true
      · rw [if_neg (by simp [ha]), if_neg (by simp [hc])]
        simp [ihr]
      · rw [if_pos ha]
        simp [ihr]

/-- C5: while the player is attacking, the sword affects at most one
enemy per tick.  If no alive enemy overlaps the hitbox the check changes
nothing; otherwise, writing the enemy list as `pre ++ e :: post` with `e`
the first alive overlapping enemy, exactly `e` is replaced by its damaged
and knocked-back version, the required-kill counter takes exactly `e`'s
increment, and every other enemy — including other overlapping ones in
`post` — is unaffected. -/
theorem attack_first_hit_only (p : Player) (lvl : Level) (hatt : p.attacking = true) :
    ((∀ e ∈ lvl.enemies, hitPred p e = false) →
      checkPlayerAttackCollisions p lvl = lvl) ∧
    (∀ pre e post, lvl.enemies = pre ++ e :: post →
      (∀ e2 ∈ pre, hitPred p e2 = false) → hitPred p e = true →
      (checkPlayerAttackCollisions p lvl).enemies = pre ++ attackHit p e :: post ∧
      (checkPlayerAttackCollisions p lvl).required_enemies_killed =
        lvl.required_enemies_killed + killInc p e) := by
  have hng : ¬¬p.attacking = true := by simp [hatt]
  constructor
  · intro h
    unfold checkPlayerAttackCollisions
    rw [if_neg hng, attackLoop_no_hit p _ _ h]
  · intro pre e post hsplit hpre he
    unfold checkPlayerAttackCollisions
    rw [if_neg hng, hsplit, attackLoop_first_hit p pre e post _ hpre he]
    exact ⟨rfl, rfl⟩

/-- Witness for C5: attack active, two enemies overlapping the hitbox —
only the first is hit, the second is untouched. -/
theorem attack_first_hit_only_witness :
    attackPlayer.attacking = true ∧
    hitPred attackPlayer enemyA = true ∧
    hitPred attackPlayer enemyB = true ∧
    (checkPlayerAttackCollisions attackPlayer attackLevel).enemies =
      [attackHit attackPlayer enemyA, enemyB] ∧
    (checkPlayerAttackCollisions attackPlayer attackLevel).required_enemies_killed =
      attackLevel.required_enemies_killed + killInc attackPlayer enemyA := by
  have hA : hitPred attackPlayer enemyA = true := by
    norm_num [hitPred, attackPlayer, enemyA, meleeType, mkPlayer, mkEnemy, attackRect,
      enemyRect, colliderect, pyInt, tileSize]
  have hB : hitPred attackPlayer enemyB = true := by
    norm_num [hitPred, attackPlayer, enemyB, meleeType, mkPlayer, mkEnemy, attackRect,
      enemyRect, colliderect, pyInt, tileSize]
  have h := (attack_first_hit_only attackPlayer attackLevel rfl).2 [] enemyA [enemyB]
    rfl (by intro e2 hm; cases hm) hA
  exact ⟨rfl, hA, hB, by simpa using h.1, h.2⟩

/-- Helper: the collectible loop rebuilds the list by marking exactly the
uncollected overlapping instances. -/
theorem collectLoop_collectibles (prect : Rect) (cs : List Collectible)
    (p : Player) (s k rc : Int) :
    (collectLoop prect cs p s k rc).collectibles = cs.map (collectMark prect) := by
  induction cs generalizing p s k rc with
  | nil => rfl
  | cons c rest ih =>
    by_cases hc : c.collected = true
    · simp only [collectLoop, if_pos hc, List.map_cons]
      rw [ih]
      simp [collectMark, hc]
    · by_cases ho : colliderect prect (collectibleRect c) = true
      · simp only [collectLoop, if_neg hc, if_pos ho, List.map_cons]
        rw [ih]
        simp [collectMark, hc, ho]
      · simp only [collectLoop, if_neg hc, if_neg ho, List.map_cons]
        rw [ih]
        simp [collectMark, hc, ho]

/-- Helper: the required-collected counter advances by exactly the number
of uncollected, overlapping, required instances in the list. -/
theorem collectLoop_reqCollected (prect : Rect) (cs : List Collectible)
    (p : Player) (s k rc : Int) :
    (collectLoop prect cs p s k rc).reqCollected =
      rc + ((cs.filter (fun c => !c.collected &&
        colliderect prect (collectibleRect c) && c.ctype.required)).length : Int) := by
  induction cs generalizing p s k rc with
  | nil => simp [collectLoop]
  | cons c rest ih =>
    by_cases hc : c.collected = true
    · simp only [collectLoop, if_pos hc]
      rw [ih]
      simp [hc]
    · by_cases ho : colliderect prect (collectibleRect c) = true
      · simp only [collectLoop, if_neg hc, if_pos ho]
        rw [ih]
        by_cases hr : c.ctype.required = true
        · simp [hc, ho, hr]
          omega
        · simp [hc, ho, hr]
      · simp only [collectLoop, if_neg hc, if_neg ho]
        rw [ih]
        simp [hc, ho]

/-- Helper: on a list where every instance is already collected or does
not overlap, the collectible loop changes nothing. -/
theorem collectLoop_id (prect : Rect) (cs : List Collectible)
    (p : Player) (s k rc : Int)
    (h : ∀ c ∈ cs, c.collected = true ∨ colliderect prect (collectibleRect c) = false) :
    collectLoop prect cs p s k rc = ⟨cs, p, s, k, rc⟩ := by
  induction cs generalizing p s k rc with
  | nil => rfl
  | cons c rest ih =>
    have hrest : ∀ c2 ∈ rest, c2.collected = true ∨
        colliderect prect (collectibleRect c2) = false :=
      fun c2 hm => h c2 (List.mem_cons_of_mem c hm)
    rcases h c (List.mem_cons_self c rest) with hc | ho
    · simp only [collectLoop, if_pos hc]
      rw [ih _ _ _ _ hrest]
    · by_cases hc : c.collected = true
      · simp only [collectLoop, if_pos hc]
        rw [ih _ _ _ _ hrest]
      · have hno : ¬(colliderect prect (collectibleRect c) = true) := by
          rw [ho]
          simp
        simp only [collectLoop, if_neg hc, if_neg hno]
        rw [ih _ _ _ _ hrest]

/-- Helper: a marked instance is collected or does not overlap — marking
is exhaustive for the loop's work. -/
theorem collectMark_settled (prect : Rect) (c : Collectible) :
    (collectMark prect c).collected = true ∨
    colliderect prect (collectibleRect (collectMark prect c)) = false := by
  unfold collectMark
  split_ifs with h
  · left
    rfl
  · by_cases hc : c.collected = true
    · exact Or.inl hc
    · right
      by_cases ho : colliderect prect (collectibleRect c) = true
      · exact absurd ⟨hc, ho⟩ h
      · simpa using ho

/-- Helper: the collectible loop moves no body: the player rectangle is
unchanged (only health is touched). -/
theorem collectLoop_playerRect (prect : Rect) (cs : List Collectible)
    (p : Player) (s k rc : Int) :
    playerRect (collectLoop prect cs p s k rc).player = playerRect p := by
  induction cs generalizing p s k rc with
  | nil => rfl
  | cons c rest ih =>
    by_cases hc : c.collected = true
    · simp only [collectLoop, if_pos hc]
      rw [ih]
    · by_cases ho : colliderect prect (collectibleRect c) = true
      · simp only [collectLoop, if_neg hc, if_pos ho]
        rw [ih]
        split <;> rfl
      · simp only [collectLoop, if_neg hc, if_neg ho]
        rw [ih]

/-- Helper: on a level whose collectibles are all settled (collected or
non-overlapping), the collectible check is the identity. -/
theorem check_id_of_settled (p' : Player) (lvl' : Level)
    (h : ∀ c ∈ lvl'.collectibles, c.collected = true ∨
      colliderect (playerRect p') (collectibleRect c) = false) :
    checkCollectibleCollisions p' lvl' = (p', lvl') := by
  unfold checkCollectibleCollisions
  rw [collectLoop_id _ _ _ _ _ _ h]

/-- C6: collection is one-shot and idempotent.  One pass of the
collectible check rewrites the list by setting the one-shot flag on
exactly the uncollected overlapping instances (never clearing a flag);
the required counter grows by exactly one per newly collected required
instance; and running the check again on its own output — overlap
persisting — changes nothing at all, so no instance is ever collected or
counted twice. -/
theorem collectible_one_shot (p : Player) (lvl : Level) :
    (checkCollectibleCollisions p lvl).2.collectibles =
      lvl.collectibles.map (collectMark (playerRect p)) ∧
    (checkCollectibleCollisions p lvl).2.required_collectibles_collected =
      lvl.required_collectibles_collected +
        ((lvl.collectibles.filter (fun c => !c.collected &&
          colliderect (playerRect p) (collectibleRect c) &&
          c.ctype.required)).length : Int) ∧
    checkCollectibleCollisions (checkCollectibleCollisions p lvl).1
      (checkCollectibleCollisions p lvl).2 = checkCollectibleCollisions p lvl := by
  refine ⟨?_, ?_, ?_⟩
  · unfold checkCollectibleCollisions
    exact collectLoop_collectibles _ _ _ _ _ _
  · unfold checkCollectibleCollisions
    exact collectLoop_reqCollected _ _ _ _ _ _
  · have hrect : playerRect (checkCollectibleCollisions p lvl).1 = playerRect p := by
      unfold checkCollectibleCollisions
      exact collectLoop_playerRect _ _ _ _ _ _
    have hmap : (checkCollectibleCollisions p lvl).2.collectibles =
        lvl.collectibles.map (collectMark (playerRect p)) := by
      unfold checkCollectibleCollisions
      exact collectLoop_collectibles _ _ _ _ _ _
    have hsettled : ∀ c2 ∈ (checkCollectibleCollisions p lvl).2.collectibles,
        c2.collected = true ∨
        colliderect (playerRect (checkCollectibleCollisions p lvl).1)
          (collectibleRect c2) = false := by
      intro c2 hm
      rw [hmap] at hm
      obtain ⟨c0, -, rfl⟩ := List.mem_map.mp hm
      rw [hrect]
      exact collectMark_settled _ c0
    rw [check_id_of_settled _ _ hsettled]

/-- Helper: one enemy-contact step keeps health within [0, max]: contact
damage is floored at zero and (for nonnegative damage) never raises
health; the knockback touches only x. -/
theorem enemyContactStep_health (r : Rect) (pl : Player) (e : Enemy)
    (h0 : 0 ≤ pl.health) (h1 : pl.health ≤ pl.max_health)
    (hd : 0 ≤ e.etype.damage) :
    0 ≤ (enemyContactStep r pl e).health ∧
    (enemyContactStep r pl e).health ≤ pl.max_health ∧
    (enemyContactStep r pl e).max_health = pl.max_health := by
  unfold enemyContactStep
  split_ifs <;> refine ⟨?_, ?_, ?_⟩ <;>
    simp_all [apply_ite Player.health, apply_ite Player.max_health] <;>
    split_ifs <;> omega

/-- Helper: the enemy-contact loop keeps health within [0, max] when all
contact damages are nonnegative. -/
theorem enemyFold_health (r : Rect) (es : List Enemy) (pl : Player)
    (h0 : 0 ≤ pl.health) (h1 : pl.health ≤ pl.max_health)
    (hd : ∀ e ∈ es, 0 ≤ e.etype.damage) :
    0 ≤ (es.foldl (enemyContactStep r) pl).health ∧
    (es.foldl (enemyContactStep r) pl).health ≤
      (es.foldl (enemyContactStep r) pl).max_health := by
  induction es generalizing pl with
  | nil => exact ⟨h0, h1⟩
  | cons e rest ih =>
    rw [List.foldl_cons]
    have hstep := enemyContactStep_health r pl e h0 h1 (hd e (List.mem_cons_self e rest))
    have hle : (enemyContactStep r pl e).health ≤ (enemyContactStep r pl e).max_health := by
      rw [hstep.2.2]
      exact hstep.2.1
    exact ih _ hstep.1 hle (fun e2 hm => hd e2 (List.mem_cons_of_mem e hm))

/-- Helper: the collectible loop keeps health within [0, max] when all
collectible magnitudes are nonnegative: the health effect is capped at
max and cannot lower a nonnegative total below zero. -/
theorem collectLoop_health (prect : Rect) (cs : List Collectible)
    (p : Player) (s k rc : Int)
    (h0 : 0 ≤ p.health) (h1 : p.health ≤ p.max_health)
    (hv : ∀ c ∈ cs, 0 ≤ c.ctype.value) :
    0 ≤ (collectLoop prect cs p s k rc).player.health ∧
    (collectLoop prect cs p s k rc).player.health ≤
      (collectLoop prect cs p s k rc).player.max_health := by
  induction cs generalizing p s k rc with
  | nil => exact ⟨h0, h1⟩
  | cons c rest ih =>
    have hvrest : ∀ c2 ∈ rest, 0 ≤ c2.ctype.value :=
      fun c2 hm => hv c2 (List.mem_cons_of_mem c hm)
    by_cases hc : c.collected = true
    · simp only [collectLoop, if_pos hc]
      exact ih _ _ _ _ h0 h1 hvrest
    · by_cases ho : colliderect prect (collectibleRect c) = true
      · simp only [collectLoop, if_neg hc, if_pos ho]
        by_cases heff : c.ctype.effect = ("health")
        · rw [if_pos heff]
          have hvc := hv c (List.mem_cons_self c rest)
          refine ih _ _ _ _ ?_ ?_ hvrest <;> simp only <;> omega
        · rw [if_neg heff]
          exact ih _ _ _ _ h0 h1 hvrest
      · simp only [collectLoop, if_neg hc, if_neg ho]
        exact ih _ _ _ _ h0 h1 hvrest

/-- C8: at the end of the interaction phase of a tick — hazard damage
during the player update, then enemy contact damage, then collectible
effects, in that order — player health lies in [0, max_health]: both
damage paths clamp at zero, and the health collectible caps at max,
provided entry health was in range and the level's contact damages and
collectible magnitudes are nonnegative. -/
theorem health_bounds (p : Player) (lvl : Level)
    (h0 : 0 ≤ p.health) (h1 : p.health ≤ p.max_health)
    (hd : ∀ e ∈ lvl.enemies, 0 ≤ e.etype.damage)
    (hv : ∀ c ∈ lvl.collectibles, 0 ≤ c.ctype.value) :
    0 ≤ ((checkCollectibleCollisions
            (checkEnemyCollisions (checkHazards lvl p) lvl) lvl).1).health ∧
    ((checkCollectibleCollisions
        (checkEnemyCollisions (checkHazards lvl p) lvl) lvl).1).health ≤
      ((checkCollectibleCollisions
          (checkEnemyCollisions (checkHazards lvl p) lvl) lvl).1).max_health := by
  have hchar := hazardFold_health (playerRect p) (getHazardTiles lvl) p h0
  have hmax1 := hazardFold_max_health (playerRect p) (getHazardTiles lvl) p
  have e1 : checkHazards lvl p = (getHazardTiles lvl).foldl (hazardStep (playerRect p)) p := rfl
  have hb10 : 0 ≤ (checkHazards lvl p).health := by
    rw [e1, hchar]
    omega
  have hb11 : (checkHazards lvl p).health ≤ (checkHazards lvl p).max_health := by
    rw [e1, hchar, hmax1]
    have : (0 : Int) ≤ ((getHazardTiles lvl).filter (fun t =>
        colliderect (playerRect p) (tileRect t.1.1 t.1.2))).length := by positivity
    omega
  have e2 : checkEnemyCollisions (checkHazards lvl p) lvl =
      lvl.enemies.foldl (enemyContactStep (playerRect (checkHazards lvl p)))
        (checkHazards lvl p) := rfl
  have hb2 := enemyFold_health (playerRect (checkHazards lvl p)) lvl.enemies
    (checkHazards lvl p) hb10 hb11 hd
  rw [← e2] at hb2
  have e3 : (checkCollectibleCollisions
      (checkEnemyCollisions (checkHazards lvl p) lvl) lvl).1 =
      (collectLoop (playerRect (checkEnemyCollisions (checkHazards lvl p) lvl))
        lvl.collectibles (checkEnemyCollisions (checkHazards lvl p) lvl)
        lvl.score lvl.keys_collected lvl.required_collectibles_collected).player := rfl
  rw [e3]
  exact collectLoop_health _ _ _ _ _ _ hb2.1 hb2.2 hv

/-- Witness for C8 at a concrete player and level. -/
theorem health_bounds_witness :
    ((0 : Int) ≤ (mkPlayer 1 2).health ∧
     (mkPlayer 1 2).health ≤ (mkPlayer 1 2).max_health ∧
     (∀ e ∈ emptyLevel.enemies, 0 ≤ e.etype.damage) ∧
     (∀ c ∈ emptyLevel.collectibles, 0 ≤ c.ctype.value)) ∧
    (0 ≤ ((checkCollectibleCollisions
            (checkEnemyCollisions (checkHazards emptyLevel (mkPlayer 1 2)) emptyLevel)
            emptyLevel).1).health ∧
     ((checkCollectibleCollisions
         (checkEnemyCollisions (checkHazards emptyLevel (mkPlayer 1 2)) emptyLevel)
         emptyLevel).1).health ≤
       ((checkCollectibleCollisions
           (checkEnemyCollisions (checkHazards emptyLevel (mkPlayer 1 2)) emptyLevel)
           emptyLevel).1).max_health) := by
  refine ⟨⟨by decide, by decide, by simp [emptyLevel], by simp [emptyLevel]⟩, ?_⟩
  exact health_bounds (mkPlayer 1 2) emptyLevel (by decide) (by decide)
    (by simp [emptyLevel]) (by simp [emptyLevel])

end Castles
